import Mathlib

/-!
Verification development for the emergency-dispatch dashboard.

The definitions below are a shallow embedding of the TypeScript source:

* `src/emergency-dispatch-ui/src/services/api.ts` — the retrying HTTP client
  (`apiRequest`), and the queue fetchers that initialize dispatched maps
  (`fetchEmergencyCalls`, `fetchNextEmergency`);
* `src/emergency-dispatch-ui/src/components/dashboard.tsx` — the dispatch-state
  reconciler (`fetchEmergenciesQueue`), the emergency statistics
  (`calculateEmergencyStats`), the polling/timer orchestration
  (`startRefreshInterval`, `startStatusRefreshInterval`, `startTimer`, the
  auto-fetch effect, and the status-poller tick), and the session-recovery
  check (`checkForSavedState`, `saveSimulationState`);
* `src/emergency-dispatch-ui/src/components/resource-panel.tsx` —
  `getRemainingNeededByType`;
* the `ResourceCache` utility (cache with a shared write timestamp and a
  10-minute TTL).

Modelling conventions: JavaScript numbers that hold integral quantities,
counters or epoch milliseconds are modelled as `Int` (or `Nat` for attempt
counters and delays); a possibly-`undefined`/`null` value is `Option`;
a JS object map `Record<EmergencyType, number>` is an association list, whose
observable behaviour is its lookup function; React `useState`/`useRef` updates
are modelled as immediate field updates on an explicit dashboard state, and
`setInterval`/`clearInterval` as operations on an explicit timer system with
fresh handles.  Strings keep real JavaScript substring (`includes`) semantics.
-/

/-- The five emergency resource types of the application. -/
inductive EmergencyType
  | Medical
  | Police
  | Fire
  | Rescue
  | Utility
deriving DecidableEq

/-- One entry of an emergency call's `requests` array.  The source field
named `Type` is rendered `rType` (`Type` is reserved in Lean). -/
structure EmergencyRequest where
  rType : EmergencyType
  Quantity : Int
deriving DecidableEq

/-- The `dispatched` object of an emergency call: a map from resource type to
dispatched count, as an association list (its observable behaviour is keyed
lookup). -/
def DispatchMap := List (EmergencyType × Int)
deriving DecidableEq

/-- An emergency call.  `dispatched` is `none` when the field is
`undefined`/`null` in the payload, `some m` when it is a defined object
(a defined empty object `{}` is `some []` and is truthy in JavaScript). -/
structure EmergencyCall where
  city : String
  county : String
  requests : List EmergencyRequest
  dispatched : Option DispatchMap
deriving DecidableEq

/-- An emergency resource supply group (fields the cache and dispatch logic
use). -/
structure EmergencyResource where
  city : String
  county : String
  resType : EmergencyType
  quantity : Int
deriving DecidableEq

/-- Reads `dispatched?.[type] || 0` from the source: `0` when the map is
undefined or the key is absent, the stored value otherwise (a stored `0` is
falsy in JavaScript but `0 || 0` is again `0`). -/
def dispGet (d : Option DispatchMap) (t : EmergencyType) : Int :=
  match d with
  | none => 0
  | some m =>
    match m.lookup t with
    | some v => v
    | none => 0

/-- `Object.fromEntries(requests.map((req) => [req.Type, 0]))` (also the
`dispatchedByType[req.Type] = 0` loop in the dashboard): an all-zero
dispatched map with one entry per request.  `fromEntries` keeps the last
entry for a duplicated key and an association-list lookup keeps the first,
but every stored value is `0`, so the two have the same lookups. -/
def initDispatched (rs : List EmergencyRequest) : DispatchMap :=
  rs.map (fun r => (r.rType, 0))

/-- The per-call normalisation performed by `fetchEmergencyCalls` and
`fetchNextEmergency` in `api.ts`:
`{ ...call, dispatched: call.dispatched || Object.fromEntries(...) }`.
Any defined object (even `{}`) is truthy, so a defined map is kept as is. -/
def processFetchedCall (c : EmergencyCall) : EmergencyCall :=
  { c with
    dispatched :=
      some (match c.dispatched with
            | some d => d
            | none => initDispatched c.requests) }

/-- `fetchEmergencyCalls` (`api.ts`), applied to the decoded response array:
initializes dispatched counts on every returned call. -/
def fetchEmergencyCalls (data : List EmergencyCall) : List EmergencyCall :=
  data.map processFetchedCall

/-- `fetchNextEmergency` (`api.ts`), applied to the decoded response call. -/
def fetchNextEmergency (c : EmergencyCall) : EmergencyCall :=
  processFetchedCall c

/-- The body of the `emergenciesData.map` inside `fetchEmergenciesQueue`
(`dashboard.tsx`): look up a previously tracked emergency with the same
`(city, county)` identity; if one is found and its `dispatched` field is
truthy (defined), carry the whole map forward, else initialize an all-zero
map over the new call's request types. -/
def reconcileOne (prev : List EmergencyCall) (ne : EmergencyCall) : EmergencyCall :=
  match prev.find? (fun e => e.city == ne.city && e.county == ne.county) with
  | some p =>
    match p.dispatched with
    | some d => { ne with dispatched := some d }
    | none => { ne with dispatched := some (initDispatched ne.requests) }
  | none => { ne with dispatched := some (initDispatched ne.requests) }

/-- The reconciliation step of `fetchEmergenciesQueue`: the polled queue,
reconciled against the previously tracked emergencies. -/
def reconcileQueue (prev newQ : List EmergencyCall) : List EmergencyCall :=
  newQ.map (reconcileOne prev)

/-- Identity keys of the previously tracked emergencies are pairwise distinct
(the spec assumes `(city, county)` unique per active queue). -/
def KeysNodup (l : List EmergencyCall) : Prop :=
  (l.map (fun e => (e.city, e.county))).Nodup

/-- The remaining-needed computation of `resource-panel.tsx`
(`getRemainingNeededByType`): total requested quantity of the type, minus the
recorded dispatched count, clamped at zero; `0` when no emergency is
selected. -/
def getRemainingNeededByType (sel : Option EmergencyCall) (t : EmergencyType) : Int :=
  match sel with
  | none => 0
  | some e =>
    let typeRequests := e.requests.filter (fun r => r.rType == t)
    let totalNeeded := typeRequests.foldl (fun s r => s + r.Quantity) 0
    let d := dispGet e.dispatched t
    max 0 (totalNeeded - d)

/-- Total requested quantity of a type, written as the spec reads
("requested quantity" of the type): the sum over the matching requests. -/
def requestedTotal (e : EmergencyCall) (t : EmergencyType) : Int :=
  ((e.requests.filter (fun r => r.rType == t)).map (fun r => r.Quantity)).sum

/-- Remaining needed as the spec words it:
`max(0, requested − dispatched)`. -/
def specRemaining (sel : Option EmergencyCall) (t : EmergencyType) : Int :=
  match sel with
  | none => 0
  | some e => max 0 (requestedTotal e t - dispGet e.dispatched t)

/-- The aggregate emergency statistics of `calculateEmergencyStats`
(`dashboard.tsx`), with each per-type record as a function. -/
structure EmergencyStats where
  totalCalls : Nat
  totalRequests : EmergencyType → Int
  pendingRequests : EmergencyType → Int
  dispatchedRequests : EmergencyType → Int

/-- `stats.someField[t] += v` on a per-type record. -/
def bumpStat (f : EmergencyType → Int) (t : EmergencyType) (v : Int) :
    EmergencyType → Int :=
  fun u => if u = t then f u + v else f u

/-- The body of the inner `emergency.requests.forEach` of
`calculateEmergencyStats`: add the request's quantity to the totals, the
recorded dispatched count to the dispatched bucket, and
`Math.max(0, Quantity - dispatched)` to the pending bucket. -/
def statsRequestStep (e : EmergencyCall) (st : EmergencyStats)
    (r : EmergencyRequest) : EmergencyStats :=
  let d := dispGet e.dispatched r.rType
  { st with
    totalRequests := bumpStat st.totalRequests r.rType r.Quantity
    dispatchedRequests := bumpStat st.dispatchedRequests r.rType d
    pendingRequests := bumpStat st.pendingRequests r.rType (max 0 (r.Quantity - d)) }

/-- The zero-initialized statistics record of `calculateEmergencyStats`. -/
def initStats (ems : List EmergencyCall) : EmergencyStats :=
  { totalCalls := ems.length
    totalRequests := fun _ => 0
    pendingRequests := fun _ => 0
    dispatchedRequests := fun _ => 0 }

/-- `calculateEmergencyStats` (`dashboard.tsx`): fold the per-request update
over every request of every emergency. -/
def calculateEmergencyStats (ems : List EmergencyCall) : EmergencyStats :=
  ems.foldl (fun st e => e.requests.foldl (statsRequestStep e) st) (initStats ems)

/-- The `ResourceCache` local-storage state: the two cached payloads and the
single shared write-timestamp key `emercery_cache_timestamp` (epoch ms). -/
structure CacheState where
  resources : Option (List EmergencyResource)
  emergencies : Option (List EmergencyCall)
  timestamp : Option Int
deriving DecidableEq

/-- `CACHE_EXPIRATION`: ten minutes in milliseconds. -/
def cacheExpirationMs : Int := 10 * 60 * 1000

/-- `ResourceCache.saveResources`: store the payload and overwrite the shared
timestamp with `Date.now()`. -/
def saveResources (rs : List EmergencyResource) (now : Int) (st : CacheState) :
    CacheState :=
  { st with resources := some rs, timestamp := some now }

/-- `ResourceCache.saveEmergencies`: store the payload and overwrite the shared
timestamp with `Date.now()`. -/
def saveEmergencies (es : List EmergencyCall) (now : Int) (st : CacheState) :
    CacheState :=
  { st with emergencies := some es, timestamp := some now }

/-- `ResourceCache.getResources`: a miss when there is no timestamp or the
cache age strictly exceeds the TTL, otherwise whatever payload is stored. -/
def getResources (st : CacheState) (now : Int) : Option (List EmergencyResource) :=
  match st.timestamp with
  | none => none
  | some ts => if now - ts > cacheExpirationMs then none else st.resources

/-- `ResourceCache.getEmergencies`: same shape as `getResources`, consulting
the same shared timestamp. -/
def getEmergencies (st : CacheState) (now : Int) : Option (List EmergencyCall) :=
  match st.timestamp with
  | none => none
  | some ts => if now - ts > cacheExpirationMs then none else st.emergencies

/-- The persisted session snapshot (`simulationState` in local storage).
`lastUpdated` is epoch milliseconds. -/
structure SavedState where
  seed : String
  targetDispatches : Int
  maxActiveCalls : Int
  totalDispatched : Int
  totalDistance : Int
  startTime : String
  isRunning : Bool
  isAutoDispatch : Bool
  lastUpdated : Int
deriving DecidableEq

/-- `saveSimulationState` (`dashboard.tsx`): the snapshot it persists always
has `isRunning: true` and `lastUpdated` equal to the time of saving. -/
def saveSimulationState (seed : String) (targetDispatches maxActiveCalls : Int)
    (totalDispatched totalDistance : Int) (startTime : String)
    (isAuto : Bool) (now : Int) : SavedState :=
  { seed := seed
    targetDispatches := targetDispatches
    maxActiveCalls := maxActiveCalls
    totalDispatched := totalDispatched
    totalDistance := totalDistance
    startTime := startTime
    isRunning := true
    isAutoDispatch := isAuto
    lastUpdated := now }

/-- Outcome of the mount-time recovery check. -/
inductive RecoveryOutcome
  | offered
  | discarded
  | ignored
deriving DecidableEq

/-- One hour in milliseconds, the recovery freshness window. -/
def recoveryWindowMs : Int := 3600000

/-- `checkForSavedState` (`dashboard.tsx`): runs only when a snapshot exists
and the `recoveryNotificationShown` flag is not set; then offers resume when
the snapshot has `isRunning` and `now - lastUpdated < 3600000`, and otherwise
clears the outdated snapshot. -/
def checkForSavedState (recoveryShown : Bool) (saved : Option SavedState)
    (now : Int) : RecoveryOutcome :=
  match saved with
  | none => RecoveryOutcome.ignored
  | some s =>
    if recoveryShown then RecoveryOutcome.ignored
    else if s.isRunning ∧ now - s.lastUpdated < recoveryWindowMs then
      RecoveryOutcome.offered
    else RecoveryOutcome.discarded

/-- The four orchestrator concerns that own a timer in the dashboard. -/
inductive Concern
  | dataRefresh
  | statusRefresh
  | autoFetch
  | elapsed
deriving DecidableEq

/-- The browser timer environment: a fresh-handle counter and the currently
live intervals (handle, owning concern). -/
structure TimerSys where
  nextId : Nat
  active : List (Nat × Concern)
deriving DecidableEq

/-- `setInterval`: install a live timer for a concern and return its fresh
handle. -/
def setI (c : Concern) (s : TimerSys) : Nat × TimerSys :=
  (s.nextId, { nextId := s.nextId + 1, active := (s.nextId, c) :: s.active })

/-- `clearInterval(h)`: remove every live timer with handle `h`
(a no-op on a handle that is not live). -/
def clearI (h : Nat) (s : TimerSys) : TimerSys :=
  { s with active := s.active.filter (fun p => p.1 != h) }

/-- The handles of the live timers owned by a concern. -/
def liveOf (c : Concern) (s : TimerSys) : List Nat :=
  (s.active.filter (fun p => p.2 == c)).map (fun p => p.1)

/-- The clear-then-install pattern shared by every dashboard start function:
if a handle is held, `clearInterval` it, then `setInterval` a new timer. -/
def bounceTimer (c : Concern) (old : Option Nat) (s : TimerSys) : Nat × TimerSys :=
  setI c (match old with
          | some h => clearI h s
          | none => s)

/-- The control/simulation status fields the dashboard reads. -/
structure ControlStatus where
  status : String
  totalDispatches : Int
  distance : Int
  requestCount : Int
  maxActiveCalls : Int
  targetDispatches : Int
  seed : String
deriving DecidableEq

/-- The `"Running"` status literal. -/
def runningStr : String := "Running"

/-- The dashboard component state relevant to the polling orchestration:
the timer environment, the four timer handles (`refreshInterval`,
`statusRefreshInterval`, `autoFetchInterval` state and the `timerRef` ref),
and the displayed status and progress counters. -/
structure DashState where
  sys : TimerSys
  refreshInterval : Option Nat
  statusRefreshInterval : Option Nat
  autoFetchInterval : Option Nat
  timerRef : Option Nat
  status : Option ControlStatus
  isSimulationRunning : Bool
  autoFetchEnabled : Bool
  totalDispatched : Int
  totalDistance : Int

/-- The handle field owned by each concern. -/
def handleOf (c : Concern) (st : DashState) : Option Nat :=
  match c with
  | Concern.dataRefresh => st.refreshInterval
  | Concern.statusRefresh => st.statusRefreshInterval
  | Concern.autoFetch => st.autoFetchInterval
  | Concern.elapsed => st.timerRef

/-- `startRefreshInterval` (`dashboard.tsx`): clear any held data-refresh
handle, install a 2s interval, store the new handle. -/
def startRefreshInterval (st : DashState) : DashState :=
  let p := bounceTimer Concern.dataRefresh st.refreshInterval st.sys
  { st with sys := p.2, refreshInterval := some p.1 }

/-- `stopRefreshInterval` (`dashboard.tsx`). -/
def stopRefreshInterval (st : DashState) : DashState :=
  match st.refreshInterval with
  | some h => { st with sys := clearI h st.sys, refreshInterval := none }
  | none => st

/-- `startStatusRefreshInterval` (`dashboard.tsx`): clear any held
status-refresh handle, install a 500ms interval, store the new handle. -/
def startStatusRefreshInterval (st : DashState) : DashState :=
  let p := bounceTimer Concern.statusRefresh st.statusRefreshInterval st.sys
  { st with sys := p.2, statusRefreshInterval := some p.1 }

/-- `stopStatusRefreshInterval` (`dashboard.tsx`). -/
def stopStatusRefreshInterval (st : DashState) : DashState :=
  match st.statusRefreshInterval with
  | some h => { st with sys := clearI h st.sys, statusRefreshInterval := none }
  | none => st

/-- The auto-fetch `useEffect` arm that installs the interval
(`dashboard.tsx`): clear any existing auto-fetch interval, install one at the
user-configured period, store the new handle. -/
def startAutoFetchInterval (st : DashState) : DashState :=
  let p := bounceTimer Concern.autoFetch st.autoFetchInterval st.sys
  { st with sys := p.2, autoFetchInterval := some p.1 }

/-- `startTimer` (`dashboard.tsx`): clear any held elapsed-time ticker
(`timerRef.current`), install a 1s interval, store the new handle. -/
def startTimer (st : DashState) : DashState :=
  let p := bounceTimer Concern.elapsed st.timerRef st.sys
  { st with sys := p.2, timerRef := some p.1 }

/-- The start operation of each concern. -/
def startOf : Concern → DashState → DashState
  | Concern.dataRefresh => startRefreshInterval
  | Concern.statusRefresh => startStatusRefreshInterval
  | Concern.autoFetch => startAutoFetchInterval
  | Concern.elapsed => startTimer

/-- Well-formedness of the timer bookkeeping: live handles and held handles
were issued by the counter, and every live timer of a concern is the one its
handle field references. -/
def TimersWF (st : DashState) : Prop :=
  (∀ p ∈ st.sys.active, p.1 < st.sys.nextId) ∧
  (∀ c h, handleOf c st = some h → h < st.sys.nextId) ∧
  (∀ c, ∀ p ∈ st.sys.active, p.2 = c → handleOf c st = some p.1)

/-- `stopStatusRefreshInterval` as the status-poller tick's closure actually
invokes it (`dashboard.tsx`): the `useCallback` instance captured by the
interval callback froze the `statusRefreshInterval` state variable at the
render in which the tick was installed, so the stop clears that captured
handle (a no-op when it was `null`), not the currently held one; the
`setStatusRefreshInterval(null)` setter still acts on current state. -/
def stopStatusRefreshIntervalAt (captured : Option Nat) (st : DashState) :
    DashState :=
  match captured with
  | some h => { st with sys := clearI h st.sys, statusRefreshInterval := none }
  | none => st

/-- `stopRefreshInterval` as the status-poller tick's closure actually
invokes it: clears the `refreshInterval` value captured at the render in
which the tick was installed. -/
def stopRefreshIntervalAt (captured : Option Nat) (st : DashState) :
    DashState :=
  match captured with
  | some h => { st with sys := clearI h st.sys, refreshInterval := none }
  | none => st

/-- The closure environment of the status-poller tick: the handle state
variables frozen inside the `stopStatusRefreshInterval` and
`stopRefreshInterval` instances the interval callback captured. -/
structure StatusTickEnv where
  capturedStatusHandle : Option Nat
  capturedDataHandle : Option Nat

/-- The tick environment produced by the render that runs
`startRefreshInterval(); startStatusRefreshInterval()` (`handleReset` and
`handleAutoDispatchStart`): the captured stop callbacks hold the handle state
values of that render — the values from *before* either new interval was
installed, since `setRefreshInterval`/`setStatusRefreshInterval` only take
effect on the next render. -/
def tickEnvAtInstall (st : DashState) : StatusTickEnv :=
  { capturedStatusHandle := st.statusRefreshInterval
    capturedDataHandle := st.refreshInterval }

/-- The status-poller tick installed by `startStatusRefreshInterval`
(`dashboard.tsx`): given the `fetchControlStatus` result, when a status is
observed whose `status` is not `"Running"`, clear the displayed status, mark
the simulation stopped, and invoke the captured stop closures — which clear
only the handles frozen in the tick's closure environment, not the currently
live pollers; otherwise display the status and update the local progress
counters. -/
def statusPollTick (env : StatusTickEnv) (d : Option ControlStatus)
    (st : DashState) : DashState :=
  match d with
  | some s =>
    if s.status ≠ runningStr then
      stopRefreshIntervalAt env.capturedDataHandle
        (stopStatusRefreshIntervalAt env.capturedStatusHandle
          { st with status := none, isSimulationRunning := false })
    else
      { st with
        status := some s
        totalDispatched := s.totalDispatches
        totalDistance := s.distance }
  | none => { st with status := none }

/-- Checks whether `needle` matches `hay` starting at its head. -/
def listStartsWith : List Char → List Char → Bool
  | [], _ => true
  | _ :: _, [] => false
  | a :: as, b :: bs => a == b && listStartsWith as bs

/-- Checks whether `needle` occurs contiguously anywhere in `hay`. -/
def listHasSub (needle : List Char) : List Char → Bool
  | [] => needle.isEmpty
  | c :: rest => listStartsWith needle (c :: rest) || listHasSub needle rest

/-- JavaScript `hay.includes(needle)`: substring containment. -/
def strIncludes (hay needle : String) : Bool :=
  listHasSub needle.data hay.data

/-- `API_CONFIG.RETRY_DELAY_BASE` (milliseconds). -/
def retryDelayBase : Nat := 750

/-- `API_CONFIG.MAX_RETRIES`: the default attempt ceiling. -/
def maxRetries : Nat := 3

/-- The backoff of `apiRequest` between retried attempts:
`Math.min(RETRY_DELAY_BASE * Math.pow(2, attempt - 1), 5000)`. -/
def backoffDelay (attempt : Nat) : Nat :=
  min (retryDelayBase * 2 ^ (attempt - 1)) 5000

/-- The outcome of one `fetch` attempt as `apiRequest` observes it:
an abort (the timeout fired), a rejected fetch with its error message, or a
completed HTTP response with its status, status text, and the first truthy
error string extracted from its body (`errorData.detail || errorData.message
|| await response.text()`), `none` when no such string was extracted. -/
inductive FetchOutcome
  | abort
  | netFail (msg : String)
  | completed (status : Nat) (statusText : String) (detail : Option String)
deriving DecidableEq

/-- `response.ok`: status in the 200–299 range. -/
def outcomeOk : FetchOutcome → Bool
  | FetchOutcome.completed status _ _ => 200 ≤ status && status < 300
  | _ => false

/-- The fallback error text `API error (status): statusText`. -/
def defaultApiErrorMsg (status : Nat) (statusText : String) : String :=
  "API error (" ++ toString status ++ "): " ++ statusText

/-- The text used by the abort branch (the default 15s deadline). -/
def timeoutMsg : String := "Request timeout after 15000ms"

/-- `lastError.message` after a failed attempt: the extraction chain
`errorData.detail || errorData.message || text || default` for a non-ok
response, the fetch rejection message for a transport failure, and the
rewritten timeout text for an abort. -/
def attemptErrMessage : FetchOutcome → String
  | FetchOutcome.abort => timeoutMsg
  | FetchOutcome.netFail m => m
  | FetchOutcome.completed status statusText detail =>
    match detail with
    | some d => d
    | none => defaultApiErrorMsg status statusText

/-- The network-failure pattern `apiRequest` looks for. -/
def fetchFailedPat : String := "fetch failed"

/-- The server-error pattern `apiRequest` looks for. -/
def serverErrorPat : String := "API error (5"

/-- The retry classifier of `apiRequest`:
`error.name === "AbortError" || lastError.message.includes("fetch failed")
|| lastError.message.includes("API error (5")`. -/
def shouldRetry (o : FetchOutcome) : Bool :=
  match o with
  | FetchOutcome.abort => true
  | _ =>
    strIncludes (attemptErrMessage o) fetchFailedPat ||
    strIncludes (attemptErrMessage o) serverErrorPat

/-- A successful `apiRequest` result: the HTTP status, the number of attempts
the loop performed (so `attemptsUsed - 1` retries were performed and logged),
and the total backoff delay slept between attempts — a lower bound on the
elapsed time of the whole operation. -/
structure ReqSuccess where
  status : Nat
  attemptsUsed : Nat
  totalDelay : Nat
deriving DecidableEq

/-- The `ApiError` thrown when the loop gives up: the last error message, the
`retries` ceiling recorded on the error object, the attempts performed, and
the total backoff delay slept. -/
structure ReqFailure where
  message : String
  retries : Nat
  attemptsUsed : Nat
  totalDelay : Nat
deriving DecidableEq

/-- Message used when no attempt ran (`lastError` still `null`). -/
def unknownApiErrorMsg : String := "Unknown API error"

/-- The HTTP status of a completed response (only read when `outcomeOk`). -/
def outcomeStatus : FetchOutcome → Nat
  | FetchOutcome.completed status _ _ => status
  | _ => 0

/-- The retry loop of `apiRequest`, driven by the scripted outcome of each
successive `fetch` call.  Mirrors the source loop: attempts run while
`attempt <= retries`; an ok response returns; a failure retries (after the
backoff delay) only when `shouldRetry` holds and `attempt < retries`,
otherwise the loop breaks and the `ApiError` is thrown. -/
def apiRequestGo (retries : Nat) : List FetchOutcome → Nat → String → Nat →
    Except ReqFailure ReqSuccess
  | script, attempt, lastMsg, acc =>
    if retries < attempt then
      Except.error { message := lastMsg, retries := retries,
                     attemptsUsed := attempt - 1, totalDelay := acc }
    else
      match script with
      | [] => Except.error { message := lastMsg, retries := retries,
                             attemptsUsed := attempt - 1, totalDelay := acc }
      | o :: rest =>
        if outcomeOk o then
          Except.ok { status := outcomeStatus o, attemptsUsed := attempt,
                      totalDelay := acc }
        else if shouldRetry o && attempt < retries then
          apiRequestGo retries rest (attempt + 1) (attemptErrMessage o)
            (acc + backoffDelay attempt)
        else
          Except.error { message := attemptErrMessage o, retries := retries,
                         attemptsUsed := attempt, totalDelay := acc }

/-- `apiRequest` (`api.ts`) over a script of per-attempt fetch outcomes. -/
def apiRequest (script : List FetchOutcome) (retries : Nat := maxRetries) :
    Except ReqFailure ReqSuccess :=
  apiRequestGo retries script 1 unknownApiErrorMsg 0

/-- A request for 5 medical units (the clamping example of the spec). -/
def exMedRequest : EmergencyRequest :=
  { rType := EmergencyType.Medical, Quantity := 5 }

/-- An emergency requesting 5 medical units with 7 recorded as dispatched. -/
def clampExampleCall : EmergencyCall :=
  { city := "Cluj-Napoca", county := "Cluj",
    requests := [exMedRequest],
    dispatched := some [(EmergencyType.Medical, 7)] }

/-- A previously tracked emergency with a non-empty dispatched map. -/
def exPrevCall : EmergencyCall :=
  { city := "Brasov", county := "Brasov",
    requests := [{ rType := EmergencyType.Fire, Quantity := 3 }],
    dispatched := some [(EmergencyType.Fire, 2)] }

/-- The same emergency as freshly polled (no dispatched field). -/
def exPolledCall : EmergencyCall :=
  { city := "Brasov", county := "Brasov",
    requests := [{ rType := EmergencyType.Fire, Quantity := 3 }],
    dispatched := none }

/-- A polled emergency nobody tracked before. -/
def exNewCall : EmergencyCall :=
  { city := "Sibiu", county := "Sibiu",
    requests := [{ rType := EmergencyType.Police, Quantity := 2 }],
    dispatched := none }

/-- A concrete resource payload. -/
def exResource : EmergencyResource :=
  { city := "Cluj-Napoca", county := "Cluj",
    resType := EmergencyType.Medical, quantity := 10 }

/-- The empty cache (no payloads, no timestamp). -/
def cacheEmpty : CacheState :=
  { resources := none, emergencies := none, timestamp := none }

/-- The dashboard state at mount: no live timers, nothing held. -/
def dashInit : DashState :=
  { sys := { nextId := 0, active := [] }
    refreshInterval := none
    statusRefreshInterval := none
    autoFetchInterval := none
    timerRef := none
    status := none
    isSimulationRunning := true
    autoFetchEnabled := false
    totalDispatched := 0
    totalDistance := 0 }

/-- A running dashboard with the data poller and the status poller live. -/
def dashRunning : DashState :=
  startStatusRefreshInterval (startRefreshInterval dashInit)

/-- A control status whose `status` is `"Stopped"`. -/
def stoppedStatus : ControlStatus :=
  { status := "Stopped", totalDispatches := 4, distance := 12,
    requestCount := 0, maxActiveCalls := 5, targetDispatches := 10,
    seed := "default" }

/-- Status text of a 503 response. -/
def serviceUnavailableTxt : String := "Service Unavailable"

/-- Status text of a 400 response. -/
def badRequestTxt : String := "Bad Request"

/-- Status text of a 200 response. -/
def okTxt : String := "OK"

/-- A server-supplied 4xx error detail that happens to contain the
substring the retry classifier looks for. -/
def craftedDetail : String := "API error (500): upstream failure"

/-- The default simulation seed. -/
def seedDefault : String := "default"

/-- A concrete snapshot start-time string. -/
def startTimeTxt : String := "t0"

/-- A concrete persisted snapshot saved at epoch time 0. -/
def exSnapshot : SavedState :=
  saveSimulationState seedDefault 100 10 3 50 startTimeTxt false 0

/-- Folding `+ Quantity` over a list equals the accumulator plus the sum of
the quantities. -/
theorem foldl_add_quantity (l : List EmergencyRequest) (a : Int) :
    l.foldl (fun s r => s + r.Quantity) a = a + (l.map (fun r => r.Quantity)).sum := by
  induction l generalizing a with
  | nil => simp
  | cons r tl ih =>
    simp only [List.foldl_cons, List.map_cons, List.sum_cons, ih]
    ring

/-- Looking up a type that appears among the requests in the all-zero
initialized map yields `some 0`. -/
theorem lookup_initDispatched (rs : List EmergencyRequest) (t : EmergencyType)
    (h : t ∈ rs.map (fun r => r.rType)) :
    (initDispatched rs).lookup t = some 0 := by
  induction rs with
  | nil => simp at h
  | cons r tl ih =>
    simp only [List.map_cons, List.mem_cons] at h
    by_cases he : t == r.rType
    · simp [initDispatched, List.lookup, he]
    · have ht : t ∈ tl.map (fun r => r.rType) := by
        rcases h with h | h
        · exact absurd (beq_iff_eq.mpr h) (by simpa using he)
        · exact h
      simpa [initDispatched, List.lookup, he] using ih ht

/-- In a list with pairwise-distinct identity keys, `find?` on an identity
predicate returns the member that carries that identity. -/
theorem find_identity (prev : List EmergencyCall) (E ne : EmergencyCall)
    (hnd : KeysNodup prev) (hmem : E ∈ prev)
    (hc : E.city = ne.city) (hk : E.county = ne.county) :
    prev.find? (fun e => e.city == ne.city && e.county == ne.county) = some E := by
  induction prev with
  | nil => simp at hmem
  | cons a tl ih =>
    have hnd' : ((a.city, a.county) ∉ tl.map (fun e => (e.city, e.county))) ∧
        KeysNodup tl := by
      simpa [KeysNodup, List.nodup_cons] using hnd
    by_cases hpa : (a.city == ne.city && a.county == ne.county) = true
    · rw [show List.find? (fun e => e.city == ne.city && e.county == ne.county)
          (a :: tl) = some a by simp only [List.find?]; rw [hpa]]
      rcases List.mem_cons.mp hmem with rfl | hE
      · rfl
      · exfalso
        have hkeys : (a.city, a.county) = (E.city, E.county) := by
          simp only [Bool.and_eq_true, beq_iff_eq] at hpa
          rw [hpa.1, hpa.2, hc, hk]
        exact hnd'.1 (hkeys ▸ List.mem_map.mpr ⟨E, hE, rfl⟩)
    · rw [show List.find? (fun e => e.city == ne.city && e.county == ne.county)
          (a :: tl) = List.find? (fun e => e.city == ne.city && e.county == ne.county)
          tl by simp only [List.find?]; rw [Bool.eq_false_iff.mpr hpa]]
      rcases List.mem_cons.mp hmem with rfl | hE
      · exact absurd (by simp [hc, hk]) hpa
      · exact ih hnd'.2 hE

/-- C3.  Remaining-needed clamping: for every (selected) emergency and every
resource type, `getRemainingNeededByType` equals
`max(0, requested − dispatched)` and is never negative; in particular,
requested 5 with dispatched 7 yields remaining 0; the per-request pending
bucket of `calculateEmergencyStats` is likewise never negative. -/
theorem remaining_needed_clamped :
    (∀ sel t, getRemainingNeededByType sel t = specRemaining sel t ∧
      0 ≤ getRemainingNeededByType sel t) ∧
    getRemainingNeededByType (some clampExampleCall) EmergencyType.Medical = 0 ∧
    (∀ ems t, 0 ≤ (calculateEmergencyStats ems).pendingRequests t) := by
  have hpend : ∀ (rs : List EmergencyRequest) (e : EmergencyCall)
      (st : EmergencyStats), (∀ t, 0 ≤ st.pendingRequests t) →
      ∀ t, 0 ≤ (rs.foldl (statsRequestStep e) st).pendingRequests t := by
    intro rs
    induction rs with
    | nil => intro e st h t; exact h t
    | cons r tl ih =>
      intro e st h t
      refine ih e _ ?_ t
      intro u
      simp only [statsRequestStep, bumpStat]
      by_cases hu : u = r.rType
      · simp only [hu, if_pos rfl]
        exact add_nonneg (h r.rType) (le_max_left 0 _)
      · simp only [if_neg hu]
        exact h u
  have houter : ∀ (ems : List EmergencyCall) (st : EmergencyStats),
      (∀ t, 0 ≤ st.pendingRequests t) →
      ∀ t, 0 ≤ (ems.foldl (fun st e => e.requests.foldl (statsRequestStep e) st)
        st).pendingRequests t := by
    intro ems
    induction ems with
    | nil => intro st h t; exact h t
    | cons e tl ih =>
      intro st h t
      exact ih _ (hpend e.requests e st h) t
  refine ⟨?_, by decide, ?_⟩
  · intro sel t
    constructor
    · cases sel with
      | none => rfl
      | some e =>
        simp only [getRemainingNeededByType, specRemaining, requestedTotal,
          foldl_add_quantity, zero_add]
    · cases sel with
      | none => exact le_refl 0
      | some e => exact le_max_left 0 _
  · intro ems t
    exact houter ems (initStats ems) (fun _ => le_refl 0) t

/-- C9.  Every emergency call returned by `fetchEmergencyCalls` or
`fetchNextEmergency` has a defined dispatched map; when the payload carried
no dispatched field, the map has an entry of `0` for every resource type
appearing in the call's requests. -/
theorem fetched_dispatched_defined :
    (∀ data c, c ∈ fetchEmergencyCalls data → c.dispatched.isSome = true) ∧
    (∀ c, (fetchNextEmergency c).dispatched.isSome = true) ∧
    (∀ c, c.dispatched = none →
      (fetchNextEmergency c).dispatched = some (initDispatched c.requests) ∧
      ∀ t, t ∈ c.requests.map (fun r => r.rType) →
        dispGet (fetchNextEmergency c).dispatched t = 0) ∧
    (∀ data c, c ∈ data → processFetchedCall c ∈ fetchEmergencyCalls data) := by
  have hsome : ∀ c : EmergencyCall, (processFetchedCall c).dispatched.isSome = true := by
    intro c
    cases hc : c.dispatched <;> simp [processFetchedCall, hc]
  refine ⟨?_, ?_, ?_, ?_⟩
  · intro data c hc
    rcases List.mem_map.mp hc with ⟨c0, _, rfl⟩
    exact hsome c0
  · intro c
    exact hsome c
  · intro c hc
    have hd : (fetchNextEmergency c).dispatched = some (initDispatched c.requests) := by
      simp [fetchNextEmergency, processFetchedCall, hc]
    refine ⟨hd, ?_⟩
    intro t ht
    rw [hd]
    simp [dispGet, lookup_initDispatched c.requests t ht]
  · intro data c hc
    exact List.mem_map.mpr ⟨c, hc, rfl⟩

/-- C9 witness: a payload with no dispatched field gets a defined all-zero
dispatched map. -/
theorem fetched_dispatched_defined_witness :
    (fetchNextEmergency exNewCall).dispatched = some (initDispatched exNewCall.requests) ∧
    dispGet (fetchNextEmergency exNewCall).dispatched EmergencyType.Police = 0 := by
  have h := fetched_dispatched_defined.2.2.1 exNewCall rfl
  exact ⟨h.1, h.2 EmergencyType.Police (by decide)⟩

/-- C8.  Cache TTL: whenever a timestamp is stored, a read whose cache age
strictly exceeds the 10-minute TTL returns `none` (exactly as if no entry
existed), and a read within the TTL returns whatever payload is stored. -/
theorem cache_ttl_expiry :
    ∀ (st : CacheState) (now ts : Int), st.timestamp = some ts →
      ((cacheExpirationMs < now - ts →
          getResources st now = none ∧ getEmergencies st now = none) ∧
       (now - ts ≤ cacheExpirationMs →
          getResources st now = st.resources ∧
          getEmergencies st now = st.emergencies)) := by
  intro st now ts hts
  constructor
  · intro hage
    constructor <;> simp [getResources, getEmergencies, hts, hage]
  · intro hage
    constructor <;> simp [getResources, getEmergencies, hts, not_lt.mpr hage]

/-- C8 witness: an 11-minute-old entry misses, a 1-minute-old entry hits. -/
theorem cache_ttl_expiry_witness :
    getResources (saveResources [exResource] 0 cacheEmpty) 660000 = none ∧
    getResources (saveResources [exResource] 0 cacheEmpty) 60000 = some [exResource] := by
  refine ⟨((cache_ttl_expiry (saveResources [exResource] 0 cacheEmpty) 660000 0
      rfl).1 (by decide)).1, ?_⟩
  have h := ((cache_ttl_expiry (saveResources [exResource] 0 cacheEmpty) 60000 0
      rfl).2 (by decide)).1
  simpa [saveResources, cacheEmpty] using h

/-- C10.  The resources and emergencies cache entries share the single write
timestamp: each save overwrites the shared timestamp and leaves the other
payload in place, and in the concrete trace below `getEmergencies` returns a
payload written 21 minutes earlier — beyond the 10-minute TTL — because a
later `saveResources` refreshed the shared timestamp. -/
theorem cache_shared_timestamp :
    (∀ st rs t, (saveResources rs t st).timestamp = some t ∧
       (saveResources rs t st).emergencies = st.emergencies) ∧
    (∀ st es t, (saveEmergencies es t st).timestamp = some t ∧
       (saveEmergencies es t st).resources = st.resources) ∧
    (getEmergencies (saveResources [exResource] 1200000
        (saveEmergencies [exNewCall] 0 cacheEmpty)) 1260000 = some [exNewCall] ∧
     cacheExpirationMs < (1260000 : Int) - 0) := by
  refine ⟨fun st rs t => ⟨rfl, rfl⟩, fun st es t => ⟨rfl, rfl⟩, by decide, by decide⟩

/-- C7.  Session-recovery freshness: a snapshot is offered only when the
resume prompt was not already shown and `now - lastUpdated` is strictly below
one hour; a stale snapshot (not yet shown) is discarded, a fresh running one
is offered; and every snapshot `saveSimulationState` persists has
`isRunning = true`. -/
theorem recovery_freshness :
    ∀ (shown : Bool) (s : SavedState) (now : Int),
      ((checkForSavedState shown (some s) now = RecoveryOutcome.offered →
          now - s.lastUpdated < recoveryWindowMs ∧ shown = false) ∧
       (shown = false → recoveryWindowMs ≤ now - s.lastUpdated →
          checkForSavedState shown (some s) now = RecoveryOutcome.discarded) ∧
       (shown = false → s.isRunning = true →
          now - s.lastUpdated < recoveryWindowMs →
          checkForSavedState shown (some s) now = RecoveryOutcome.offered) ∧
       (∀ seed td mac tdp tdist stime auto t,
          (saveSimulationState seed td mac tdp tdist stime auto t).isRunning = true)) := by
  intro shown s now
  refine ⟨?_, ?_, ?_, fun _ _ _ _ _ _ _ _ => rfl⟩
  · intro h
    cases shown with
    | true => simp [checkForSavedState] at h
    | false =>
      simp only [checkForSavedState, Bool.false_eq_true, if_false] at h
      by_cases hc : s.isRunning = true ∧ now - s.lastUpdated < recoveryWindowMs
      · exact ⟨hc.2, rfl⟩
      · rw [if_neg (by simpa using hc)] at h
        exact absurd h (by simp)
  · intro hsh hage
    subst hsh
    have : ¬ (s.isRunning = true ∧ now - s.lastUpdated < recoveryWindowMs) := by
      intro hc
      exact absurd hc.2 (not_lt.mpr hage)
    simp only [checkForSavedState, Bool.false_eq_true, if_false]
    rw [if_neg (by simpa using this)]
  · intro hsh hrun hage
    subst hsh
    simp only [checkForSavedState, Bool.false_eq_true, if_false]
    rw [if_pos (by simp [hrun, hage])]

/-- C7 witness: a 5-minute-old snapshot is offered, a 2-hour-old one is
discarded. -/
theorem recovery_freshness_witness :
    checkForSavedState false (some exSnapshot) 300000
      = RecoveryOutcome.offered ∧
    checkForSavedState false (some exSnapshot) 7200000
      = RecoveryOutcome.discarded := by
  constructor
  · exact (recovery_freshness false exSnapshot 300000).2.2.1
      rfl rfl (by decide)
  · exact (recovery_freshness false exSnapshot 7200000).2.1
      rfl (by decide)

/-- C1.  Carry-forward of dispatched counts: for every emergency of a polled
queue, if a previously tracked emergency with the same `(city, county)`
identity exists (identities pairwise distinct) and its dispatched map is
non-empty, the reconciled record carries exactly that map; if no previously
tracked emergency has that identity, the reconciled record's dispatched map
is initialized to `0` for every resource type appearing in its requests. -/
theorem carry_forward_dispatched :
    ∀ (prev newQ : List EmergencyCall) (ne : EmergencyCall), ne ∈ newQ →
      ((∀ E d, KeysNodup prev → E ∈ prev → E.city = ne.city →
          E.county = ne.county → E.dispatched = some d → d ≠ [] →
          (reconcileOne prev ne).dispatched = some d) ∧
       ((∀ E ∈ prev, ¬(E.city = ne.city ∧ E.county = ne.county)) →
          (reconcileOne prev ne).dispatched = some (initDispatched ne.requests)) ∧
       reconcileOne prev ne ∈ reconcileQueue prev newQ) := by
  intro prev newQ ne hne
  refine ⟨?_, ?_, List.mem_map.mpr ⟨ne, hne, rfl⟩⟩
  · intro E d hnd hmem hc hk hd _
    have hfind := find_identity prev E ne hnd hmem hc hk
    simp [reconcileOne, hfind, hd]
  · intro habs
    have hfind : prev.find?
        (fun e => e.city == ne.city && e.county == ne.county) = none := by
      apply List.find?_eq_none.mpr
      intro x hx
      have := habs x hx
      simp only [Bool.and_eq_true, beq_iff_eq]
      intro hcontra
      exact this hcontra
    simp [reconcileOne, hfind]

/-- C1 witness: a tracked emergency with dispatched `Fire ↦ 2` is carried
forward onto the freshly polled record; an untracked polled emergency gets
the all-zero initialization. -/
theorem carry_forward_dispatched_witness :
    (reconcileOne [exPrevCall] exPolledCall).dispatched
      = some [(EmergencyType.Fire, 2)] ∧
    (reconcileOne [exPrevCall] exNewCall).dispatched
      = some (initDispatched exNewCall.requests) := by
  constructor
  · exact (carry_forward_dispatched [exPrevCall] [exPolledCall] exPolledCall
      (by decide)).1 exPrevCall [(EmergencyType.Fire, 2)]
      (by simp [KeysNodup]) (by decide) rfl rfl rfl (by decide)
  · exact (carry_forward_dispatched [exPrevCall] [exNewCall] exNewCall
      (by decide)).2.1 (by decide)

/-- C2.  Retry accounting on success: when the first two fetch attempts fail
with HTTP 503 and the operation succeeds on the third attempt, the success
result records 3 attempts — i.e. 2 performed retries — and the total backoff
delay slept (a lower bound on the elapsed time of the whole operation) is
exactly `retryDelayBase * (1 + 2)`, the sum of the delays
`base * 2 ^ 0` and `base * 2 ^ 1`. -/
theorem retry_accounting_503 :
    ∀ (d1 d2 : Option String) (s1 s2 sOK : String) (r : ReqSuccess),
      apiRequest [FetchOutcome.completed 503 s1 d1, FetchOutcome.completed 503 s2 d2,
                  FetchOutcome.completed 200 sOK none] maxRetries = Except.ok r →
      (r.attemptsUsed = 3 ∧ r.attemptsUsed - 1 = 2 ∧
       r.totalDelay = retryDelayBase * (1 + 2) ∧ r.status = 200) := by
  intro d1 d2 s1 s2 sOK r h
  by_cases hr1 : shouldRetry (FetchOutcome.completed 503 s1 d1) = true
  · by_cases hr2 : shouldRetry (FetchOutcome.completed 503 s2 d2) = true
    · simp [apiRequest, apiRequestGo, maxRetries, outcomeOk, outcomeStatus,
        backoffDelay, retryDelayBase, hr1, hr2] at h
      rw [← h]
      exact ⟨rfl, rfl, by decide, rfl⟩
    · simp [apiRequest, apiRequestGo, maxRetries, outcomeOk, outcomeStatus,
        backoffDelay, retryDelayBase, hr1, hr2] at h
  · simp [apiRequest, apiRequestGo, maxRetries, outcomeOk, outcomeStatus,
      backoffDelay, retryDelayBase, hr1] at h

/-- C2 witness: two plain 503 responses (default error text) followed by a
200 response give a success after exactly 2 retries and 2250ms of backoff. -/
theorem retry_accounting_503_witness :
    (ReqSuccess.mk 200 3 2250).attemptsUsed = 3 ∧
    (ReqSuccess.mk 200 3 2250).attemptsUsed - 1 = 2 ∧
    (ReqSuccess.mk 200 3 2250).totalDelay = retryDelayBase * (1 + 2) ∧
    (ReqSuccess.mk 200 3 2250).status = 200 :=
  retry_accounting_503 none none serviceUnavailableTxt serviceUnavailableTxt okTxt
    (ReqSuccess.mk 200 3 2250) (by rfl)

/-- C4.  The retry classifier matches on the error-message text, not on the
response status: a 400 response whose server-supplied JSON detail contains
the substring `API error (5` is classified retryable and the request is
attempted a second time (here even succeeding on the retry), contradicting
the no-retry-on-4xx policy stated by the source's own comment; a 400
response with the default error text is attempted exactly once and fails
immediately. -/
theorem retry_on_4xx_crafted_body :
    apiRequest [FetchOutcome.completed 400 badRequestTxt (some craftedDetail),
                FetchOutcome.completed 200 okTxt none] maxRetries
      = Except.ok { status := 200, attemptsUsed := 2, totalDelay := backoffDelay 1 } ∧
    shouldRetry (FetchOutcome.completed 400 badRequestTxt (some craftedDetail)) = true ∧
    (2 : Nat) ≠ 1 ∧
    apiRequest [FetchOutcome.completed 400 badRequestTxt none] maxRetries
      = Except.error { message := defaultApiErrorMsg 400 badRequestTxt,
                       retries := maxRetries, attemptsUsed := 1, totalDelay := 0 } :=
  ⟨rfl, rfl, by decide, rfl⟩

/-- Membership after `clearInterval`: still live, and not the cleared
handle. -/
theorem mem_clearI {p : Nat × Concern} {h : Nat} {s : TimerSys} :
    p ∈ (clearI h s).active ↔ p ∈ s.active ∧ p.1 ≠ h := by
  simp [clearI, List.mem_filter, bne_iff_ne]

/-- A concern with no live timers has an empty concern filter. -/
theorem filterConcern_nil {c : Concern} {l : List (Nat × Concern)}
    (h : ∀ p ∈ l, p.2 ≠ c) : l.filter (fun p => p.2 == c) = [] := by
  rw [List.filter_eq_nil_iff]
  intro p hp
  simp [h p hp]

/-- A concern with no live timers has no live handles. -/
theorem liveOf_eq_nil {c : Concern} {s : TimerSys}
    (h : ∀ p ∈ s.active, p.2 ≠ c) : liveOf c s = [] := by
  simp [liveOf, filterConcern_nil h]

/-- The fresh handle returned by the clear-then-install pattern. -/
theorem bounce_fst (c : Concern) (old : Option Nat) (s : TimerSys) :
    (bounceTimer c old s).1 = s.nextId := by
  cases old <;> rfl

/-- The counter after the clear-then-install pattern. -/
theorem bounce_nextId (c : Concern) (old : Option Nat) (s : TimerSys) :
    (bounceTimer c old s).2.nextId = s.nextId + 1 := by
  cases old <;> rfl

/-- Every timer live after the clear-then-install pattern is the new one or
one that was already live. -/
theorem bounce_active_mem (c : Concern) (old : Option Nat) (s : TimerSys)
    {p : Nat × Concern} (hp : p ∈ (bounceTimer c old s).2.active) :
    p = (s.nextId, c) ∨ p ∈ s.active := by
  cases old with
  | none => simpa [bounceTimer, setI] using hp
  | some h =>
    simp only [bounceTimer, setI, List.mem_cons] at hp
    rcases hp with rfl | hp
    · exact Or.inl rfl
    · exact Or.inr (mem_clearI.mp hp).1

/-- After clearing a held handle below the counter and installing a new
timer, no live timer carries the old handle. -/
theorem bounce_active_old_ne (c : Concern) (s : TimerSys) {h : Nat}
    {p : Nat × Concern} (hp : p ∈ (bounceTimer c (some h) s).2.active)
    (hb : h < s.nextId) : p.1 ≠ h := by
  simp only [bounceTimer, setI, List.mem_cons] at hp
  rcases hp with rfl | hp
  · exact ne_of_gt hb
  · exact (mem_clearI.mp hp).2

/-- When every live timer of the concern is the held one, the
clear-then-install pattern leaves exactly the fresh timer live. -/
theorem liveOf_bounce (c : Concern) (old : Option Nat) (s : TimerSys)
    (hcon : ∀ p ∈ s.active, p.2 = c → old = some p.1) :
    liveOf c (bounceTimer c old s).2 = [s.nextId] := by
  cases old with
  | none =>
    have hnil : s.active.filter (fun p => p.2 == c) = [] :=
      filterConcern_nil (fun p hp hc => by have := hcon p hp hc; simp at this)
    simp [bounceTimer, setI, liveOf, List.filter_cons, hnil]
  | some h =>
    have hnil : (clearI h s).active.filter (fun p => p.2 == c) = [] := by
      apply filterConcern_nil
      intro p hp hc
      have hm := mem_clearI.mp hp
      have heq := hcon p hm.1 hc
      injection heq with heq
      exact hm.2 heq.symm
    have hn : (clearI h s).nextId = s.nextId := rfl
    simp [bounceTimer, setI, liveOf, List.filter_cons, hnil, hn]

/-- Each concern's start operation hands its held handle and the timer
system to the clear-then-install pattern. -/
theorem startOf_sys (c : Concern) (st : DashState) :
    (startOf c st).sys = (bounceTimer c (handleOf c st) st.sys).2 := by
  cases c <;> rfl

/-- Each concern's start operation stores the fresh handle. -/
theorem handleOf_startOf_self (c : Concern) (st : DashState) :
    handleOf c (startOf c st) = some (bounceTimer c (handleOf c st) st.sys).1 := by
  cases c <;> rfl

/-- Starting one concern leaves the other concerns' handles alone. -/
theorem handleOf_startOf_ne (c cq : Concern) (st : DashState) (h : cq ≠ c) :
    handleOf cq (startOf c st) = handleOf cq st := by
  cases c <;> cases cq <;> first | rfl | exact absurd rfl h

/-- Starting any concern preserves timer well-formedness. -/
theorem TimersWF_startOf (c : Concern) (st : DashState) (hwf : TimersWF st) :
    TimersWF (startOf c st) := by
  obtain ⟨hb, hh, hcon⟩ := hwf
  refine ⟨?_, ?_, ?_⟩
  · intro p hp
    rw [startOf_sys] at hp
    rw [startOf_sys, bounce_nextId]
    rcases bounce_active_mem c (handleOf c st) st.sys hp with rfl | hmem
    · exact Nat.lt_succ_self _
    · exact Nat.lt_succ_of_lt (hb p hmem)
  · intro cq hq hcq
    rw [startOf_sys, bounce_nextId]
    by_cases hcc : cq = c
    · subst hcc
      rw [handleOf_startOf_self, bounce_fst] at hcq
      injection hcq with hcq
      rw [← hcq]
      exact Nat.lt_succ_self _
    · rw [handleOf_startOf_ne c cq st hcc] at hcq
      exact Nat.lt_succ_of_lt (hh cq hq hcq)
  · intro cq p hp hpc
    rw [startOf_sys] at hp
    by_cases hcc : cq = c
    · subst hcc
      rw [handleOf_startOf_self, bounce_fst]
      cases hold : handleOf cq st with
      | none =>
        rw [hold] at hp
        rcases bounce_active_mem cq none st.sys hp with rfl | hmem
        · rfl
        · have := hcon cq p hmem hpc
          rw [hold] at this
          exact absurd this (by simp)
      | some h0 =>
        rw [hold] at hp
        rcases bounce_active_mem cq (some h0) st.sys hp with rfl | hmem
        · rfl
        · have heq := hcon cq p hmem hpc
          rw [hold] at heq
          injection heq with heq
          exact absurd heq.symm (bounce_active_old_ne cq st.sys hp (hh cq h0 hold))
    · rw [handleOf_startOf_ne c cq st hcc]
      rcases bounce_active_mem c (handleOf c st) st.sys hp with rfl | hmem
      · exact absurd hpc.symm hcc
      · exact hcon cq p hmem hpc

/-- The mount state is well-formed. -/
theorem dashInit_wf : TimersWF dashInit := by
  refine ⟨?_, ?_, ?_⟩
  · intro p hp
    simp [dashInit] at hp
  · intro c h hc
    cases c <;> simp [handleOf, dashInit] at hc
  · intro c p hp
    simp [dashInit] at hp

/-- Clearing the displayed status fields does not disturb the timer
bookkeeping. -/
theorem TimersWF_clearDisplay (st : DashState) (hwf : TimersWF st) :
    TimersWF { st with status := none, isSimulationRunning := false } := by
  obtain ⟨hb, hh, hcon⟩ := hwf
  refine ⟨hb, ?_, ?_⟩
  · intro c h hc
    refine hh c h ?_
    cases c <;> exact hc
  · intro c p hp hpc
    have := hcon c p hp hpc
    cases c <;> exact this

/-- Stopping the status poller and then the data poller through the
current-handle stop functions — as the user-driven `handleStop` teardown
does, its callbacks being re-created with fresh state every render — kills
every live timer of both concerns and leaves the displayed fields alone. -/
theorem stops_kill_both (st : DashState) (hwf : TimersWF st) :
    liveOf Concern.statusRefresh
      (stopRefreshInterval (stopStatusRefreshInterval st)).sys = [] ∧
    liveOf Concern.dataRefresh
      (stopRefreshInterval (stopStatusRefreshInterval st)).sys = [] ∧
    (stopRefreshInterval (stopStatusRefreshInterval st)).status = st.status ∧
    (stopRefreshInterval (stopStatusRefreshInterval st)).isSimulationRunning
      = st.isSimulationRunning := by
  obtain ⟨hb, hh, hcon⟩ := hwf
  have hconS := hcon Concern.statusRefresh
  have hconD := hcon Concern.dataRefresh
  rcases hS : st.statusRefreshInterval with _ | h1 <;>
    rcases hR : st.refreshInterval with _ | h2
  · have e : stopRefreshInterval (stopStatusRefreshInterval st) = st := by
      simp [stopStatusRefreshInterval, stopRefreshInterval, hS, hR]
    rw [e]
    refine ⟨liveOf_eq_nil ?_, liveOf_eq_nil ?_, rfl, rfl⟩
    · intro p hp hpc
      have := hconS p hp hpc
      simp [handleOf, hS] at this
    · intro p hp hpc
      have := hconD p hp hpc
      simp [handleOf, hR] at this
  · have e : stopRefreshInterval (stopStatusRefreshInterval st)
        = { st with sys := clearI h2 st.sys, refreshInterval := none } := by
      simp [stopStatusRefreshInterval, stopRefreshInterval, hS, hR]
    rw [e]
    refine ⟨liveOf_eq_nil ?_, liveOf_eq_nil ?_, rfl, rfl⟩
    · intro p hp hpc
      have := hconS p (mem_clearI.mp hp).1 hpc
      simp [handleOf, hS] at this
    · intro p hp hpc
      have hm := mem_clearI.mp hp
      have := hconD p hm.1 hpc
      simp only [handleOf, hR, Option.some.injEq] at this
      exact hm.2 this.symm
  · have e : stopRefreshInterval (stopStatusRefreshInterval st)
        = { st with sys := clearI h1 st.sys, statusRefreshInterval := none } := by
      simp [stopStatusRefreshInterval, stopRefreshInterval, hS, hR]
    rw [e]
    refine ⟨liveOf_eq_nil ?_, liveOf_eq_nil ?_, rfl, rfl⟩
    · intro p hp hpc
      have hm := mem_clearI.mp hp
      have := hconS p hm.1 hpc
      simp only [handleOf, hS, Option.some.injEq] at this
      exact hm.2 this.symm
    · intro p hp hpc
      have := hconD p (mem_clearI.mp hp).1 hpc
      simp [handleOf, hR] at this
  · have e : stopRefreshInterval (stopStatusRefreshInterval st)
        = { st with
            sys := clearI h2 (clearI h1 st.sys)
            statusRefreshInterval := none
            refreshInterval := none } := by
      simp [stopStatusRefreshInterval, stopRefreshInterval, hS, hR]
    rw [e]
    refine ⟨liveOf_eq_nil ?_, liveOf_eq_nil ?_, rfl, rfl⟩
    · intro p hp hpc
      have hm := mem_clearI.mp hp
      have hm1 := mem_clearI.mp hm.1
      have := hconS p hm1.1 hpc
      simp only [handleOf, hS, Option.some.injEq] at this
      exact hm1.2 this.symm
    · intro p hp hpc
      have hm := mem_clearI.mp hp
      have hm1 := mem_clearI.mp hm.1
      have := hconD p hm1.1 hpc
      simp only [handleOf, hR, Option.some.injEq] at this
      exact hm.2 this.symm

/-- C6.  Idempotent poller start: for every orchestrator concern, starting
while a timer is live cancels the held timer before installing a new one, so
after a start exactly one live timer of that concern exists; starting twice
in a row still leaves exactly one; the previously held handle is no longer
live; and well-formedness of the timer bookkeeping is preserved. -/
theorem idempotent_poller_start :
    ∀ (st : DashState) (c : Concern), TimersWF st →
      ((liveOf c (startOf c st).sys).length = 1 ∧
       (liveOf c (startOf c (startOf c st)).sys).length = 1 ∧
       (∀ h p, handleOf c st = some h → p ∈ (startOf c st).sys.active → p.1 ≠ h) ∧
       TimersWF (startOf c st)) := by
  intro st c hwf
  have hlive : ∀ (su : DashState), TimersWF su →
      liveOf c (startOf c su).sys = [su.sys.nextId] := by
    intro su hwfu
    rw [startOf_sys]
    exact liveOf_bounce c (handleOf c su) su.sys (fun p hp hpc => hwfu.2.2 c p hp hpc)
  refine ⟨by rw [hlive st hwf]; rfl,
    by rw [hlive _ (TimersWF_startOf c st hwf)]; rfl, ?_,
    TimersWF_startOf c st hwf⟩
  intro h p hh hp
  rw [startOf_sys, hh] at hp
  exact bounce_active_old_ne c st.sys hp (hwf.2.1 c h hh)

/-- The freshly installed timer of the clear-then-install pattern is live. -/
theorem bounce_self_mem (c : Concern) (old : Option Nat) (s : TimerSys) :
    (s.nextId, c) ∈ (bounceTimer c old s).2.active := by
  cases old with
  | none => exact List.mem_cons_self _ _
  | some h => exact List.mem_cons_self _ _

/-- An already-live timer distinct from any cleared handle survives the
clear-then-install pattern. -/
theorem bounce_active_mem_of (c : Concern) (old : Option Nat) (s : TimerSys)
    {p : Nat × Concern} (hp : p ∈ s.active)
    (hne : ∀ h, old = some h → p.1 ≠ h) :
    p ∈ (bounceTimer c old s).2.active := by
  cases old with
  | none => exact List.mem_cons_of_mem _ hp
  | some h => exact List.mem_cons_of_mem _ (mem_clearI.mpr ⟨hp, hne h rfl⟩)

/-- A live timer of a concern contributes its handle to `liveOf`. -/
theorem mem_liveOf {c : Concern} {s : TimerSys} {p : Nat × Concern}
    (hp : p ∈ s.active) (hc : p.2 = c) : p.1 ∈ liveOf c s := by
  simp only [liveOf, List.mem_map]
  exact ⟨p, List.mem_filter.mpr ⟨hp, by simp [hc]⟩, rfl⟩

/-- The tick's captured-closure stops leave the displayed fields alone. -/
theorem stopAt_display (capS capD : Option Nat) (st : DashState) :
    (stopRefreshIntervalAt capD (stopStatusRefreshIntervalAt capS st)).status
      = st.status ∧
    (stopRefreshIntervalAt capD
        (stopStatusRefreshIntervalAt capS st)).isSimulationRunning
      = st.isSimulationRunning := by
  cases capS <;> cases capD <;> exact ⟨rfl, rfl⟩

/-- A live timer distinct from both captured handles survives the tick's
captured-closure stops. -/
theorem mem_stopAt (capS capD : Option Nat) (st : DashState)
    {p : Nat × Concern} (hp : p ∈ st.sys.active)
    (hS : ∀ h, capS = some h → p.1 ≠ h)
    (hD : ∀ h, capD = some h → p.1 ≠ h) :
    p ∈ (stopRefreshIntervalAt capD
          (stopStatusRefreshIntervalAt capS st)).sys.active := by
  cases capS with
  | none =>
    cases capD with
    | none => exact hp
    | some h => exact mem_clearI.mpr ⟨hp, hD h rfl⟩
  | some hs =>
    cases capD with
    | none => exact mem_clearI.mpr ⟨hp, hS hs rfl⟩
    | some h => exact mem_clearI.mpr ⟨mem_clearI.mpr ⟨hp, hS hs rfl⟩, hD h rfl⟩

/-- C5.  Cross-timer cancellation fails in the source: the stop callbacks the
status-poller tick invokes are closures frozen at the render that installed
the pollers (their captured handle state predates the installation), so on a
tick observing a non-`Running` status the displayed status is cleared and the
running flag dropped, but the stops clear only the captured pre-install
handles: the freshly installed data poller and status poller are both still
live afterwards and keep firing, contrary to the claim.  The second conjunct
evaluates the concrete mount-state run. -/
theorem status_tick_stale_closures :
    (∀ (st : DashState) (s : ControlStatus), TimersWF st →
      s.status ≠ runningStr →
      ((statusPollTick (tickEnvAtInstall st) (some s)
          (startStatusRefreshInterval (startRefreshInterval st))).status = none ∧
       (statusPollTick (tickEnvAtInstall st) (some s)
          (startStatusRefreshInterval
            (startRefreshInterval st))).isSimulationRunning = false ∧
       st.sys.nextId ∈ liveOf Concern.dataRefresh
         (statusPollTick (tickEnvAtInstall st) (some s)
           (startStatusRefreshInterval (startRefreshInterval st))).sys ∧
       st.sys.nextId + 1 ∈ liveOf Concern.statusRefresh
         (statusPollTick (tickEnvAtInstall st) (some s)
           (startStatusRefreshInterval (startRefreshInterval st))).sys)) ∧
    (liveOf Concern.dataRefresh
        (statusPollTick (tickEnvAtInstall dashInit) (some stoppedStatus)
          dashRunning).sys = [0] ∧
     liveOf Concern.statusRefresh
        (statusPollTick (tickEnvAtInstall dashInit) (some stoppedStatus)
          dashRunning).sys = [1]) := by
  constructor
  · intro st s hwf hs
    obtain ⟨hb, hh, hcon⟩ := hwf
    have hdata_a : (st.sys.nextId, Concern.dataRefresh)
        ∈ (startRefreshInterval st).sys.active :=
      bounce_self_mem Concern.dataRefresh st.refreshInterval st.sys
    have hna : (startRefreshInterval st).sys.nextId = st.sys.nextId + 1 :=
      bounce_nextId Concern.dataRefresh st.refreshInterval st.sys
    have hstat_b : (st.sys.nextId + 1, Concern.statusRefresh)
        ∈ (startStatusRefreshInterval (startRefreshInterval st)).sys.active := by
      have h0 := bounce_self_mem Concern.statusRefresh
        (startRefreshInterval st).statusRefreshInterval (startRefreshInterval st).sys
      rw [hna] at h0
      exact h0
    have hdata_b : (st.sys.nextId, Concern.dataRefresh)
        ∈ (startStatusRefreshInterval (startRefreshInterval st)).sys.active := by
      apply bounce_active_mem_of Concern.statusRefresh
        (startRefreshInterval st).statusRefreshInterval
        (startRefreshInterval st).sys hdata_a
      intro h hsome
      have hsome' : st.statusRefreshInterval = some h := hsome
      exact ne_of_gt (hh Concern.statusRefresh h hsome')
    have htick : statusPollTick (tickEnvAtInstall st) (some s)
        (startStatusRefreshInterval (startRefreshInterval st))
        = stopRefreshIntervalAt st.refreshInterval
            (stopStatusRefreshIntervalAt st.statusRefreshInterval
              { startStatusRefreshInterval (startRefreshInterval st) with
                status := none
                isSimulationRunning := false }) := by
      simp [statusPollTick, hs, tickEnvAtInstall]
    have hdisp := stopAt_display st.statusRefreshInterval st.refreshInterval
      { startStatusRefreshInterval (startRefreshInterval st) with
        status := none
        isSimulationRunning := false }
    refine ⟨?_, ?_, ?_, ?_⟩
    · rw [htick]
      exact hdisp.1.trans rfl
    · rw [htick]
      exact hdisp.2.trans rfl
    · rw [htick]
      exact @mem_liveOf _ _ (st.sys.nextId, Concern.dataRefresh)
        (mem_stopAt _ _ _ hdata_b
          (fun h hsome => ne_of_gt (hh Concern.statusRefresh h hsome))
          (fun h hsome => ne_of_gt (hh Concern.dataRefresh h hsome))) rfl
    · rw [htick]
      exact @mem_liveOf _ _ (st.sys.nextId + 1, Concern.statusRefresh)
        (mem_stopAt _ _ _ hstat_b
          (fun h hsome =>
            ne_of_gt (Nat.lt_succ_of_lt (hh Concern.statusRefresh h hsome)))
          (fun h hsome =>
            ne_of_gt (Nat.lt_succ_of_lt (hh Concern.dataRefresh h hsome)))) rfl
  · exact ⟨by decide, by decide⟩

/-- C5 witness: `handleReset` from the mount state installs the data poller
(handle 0) and the status poller (handle 1); the next tick observes a
`Stopped` status and clears the display, yet both pollers are still live. -/
theorem status_tick_stale_closures_witness :
    (statusPollTick (tickEnvAtInstall dashInit) (some stoppedStatus)
        (startStatusRefreshInterval (startRefreshInterval dashInit))).status = none ∧
    (statusPollTick (tickEnvAtInstall dashInit) (some stoppedStatus)
        (startStatusRefreshInterval
          (startRefreshInterval dashInit))).isSimulationRunning = false ∧
    dashInit.sys.nextId ∈ liveOf Concern.dataRefresh
      (statusPollTick (tickEnvAtInstall dashInit) (some stoppedStatus)
        (startStatusRefreshInterval (startRefreshInterval dashInit))).sys ∧
    dashInit.sys.nextId + 1 ∈ liveOf Concern.statusRefresh
      (statusPollTick (tickEnvAtInstall dashInit) (some stoppedStatus)
        (startStatusRefreshInterval (startRefreshInterval dashInit))).sys :=
  status_tick_stale_closures.1 dashInit stoppedStatus dashInit_wf (by decide)

/-- C6 witness: starting the data poller twice from the mount state leaves
exactly one live data-refresh timer. -/
theorem idempotent_poller_start_witness :
    (liveOf Concern.dataRefresh
      (startOf Concern.dataRefresh (startOf Concern.dataRefresh dashInit)).sys).length = 1 :=
  (idempotent_poller_start dashInit Concern.dataRefresh dashInit_wf).2.1
